import Mathlib

/-!
Shallow embedding of the DotRepute reputation-scoring core.

The repository concatenates several Rust scoring-engine variants; the
claims touch three of them, embedded here in three namespaces:

* `InkScoring`      — "WASM into ink scoring logic.rs": `MetricWeights`,
  `RawMetrics`, the static `ScoringEngine` transforms, `TimeDecayCalculator`.
* `CrateScoring`    — "Standalone Rust Crate scoring.rs": `MetricData`,
  `WeightConfig`, `ScoreCalculator`.
* `RustScoringEngine` — "Rust Scoring Engine.rs": the f64 engine with
  per-account score history (`calculate_score`, `store_score_history`,
  `clear_old_history`).

Machine integers are modelled as `Nat`; Rust `saturating_mul`/`saturating_add`
on `u32`/`u64` become `min` against the type maximum, unchecked `u32`
multiplication that can overflow becomes `% 2^32`, and `saturating_sub` is
`Nat` subtraction.  Rust `f64` values are modelled by Lean `Float` (IEEE
double); no theorem below depends on the value of any float.
-/

def u32Max : Nat := 2 ^ 32 - 1

def u64Max : Nat := 2 ^ 64 - 1

/-- Rust `u32::saturating_mul`. -/
def satMul32 (a b : Nat) : Nat := min (a * b) u32Max

/-- Rust `u32::saturating_add`. -/
def satAdd32 (a b : Nat) : Nat := min (a + b) u32Max

/-- Rust `u64::saturating_mul`. -/
def satMul64 (a b : Nat) : Nat := min (a * b) u64Max

/-- Rust `u64::saturating_add`. -/
def satAdd64 (a b : Nat) : Nat := min (a + b) u64Max

namespace InkScoring

/-- `MetricWeights` from "WASM into ink scoring logic.rs". -/
structure MetricWeights where
  governance_weight : Nat
  staking_weight : Nat
  identity_weight : Nat
  community_weight : Nat
  total_weight : Nat
deriving DecidableEq, Repr

/-- `MetricWeights::new`: stores the four weights and their (wrapping `u32`)
sum in `total_weight`. -/
def MetricWeights.new (governance staking identity community : Nat) : MetricWeights :=
  { governance_weight := governance
    staking_weight := staking
    identity_weight := identity
    community_weight := community
    total_weight := (governance + staking + identity + community) % 2 ^ 32 }

/-- `MetricWeights::default`: weights `30, 30, 20, 20`. -/
def MetricWeights.default : MetricWeights := MetricWeights.new 30 30 20 20

/-- `MetricWeights::validate`: `total_weight > 0 && total_weight == 100`. -/
def MetricWeights.validate (w : MetricWeights) : Bool :=
  (w.total_weight != 0) && (w.total_weight == 100)

/-- `RawMetrics` input record. -/
structure RawMetrics where
  governance_votes : Nat
  governance_proposals : Nat
  staking_amount : Nat
  staking_duration : Nat
  identity_verified : Bool
  identity_judgements : Nat
  community_posts : Nat
  community_upvotes : Nat
deriving DecidableEq, Repr

/-- `ScoringError` enumeration. -/
inductive ScoringError where
  | InvalidGovernanceVotes
  | InvalidGovernanceProposals
  | InvalidIdentityJudgements
  | SuspiciousUpvoteRatio
  | InvalidStakingData
  | InvalidWeights
  | ScoreOverflow
  | DivisionByZero
deriving DecidableEq, Repr

/-- `RawMetrics::validate`: five checks in source order, first failure wins. -/
def RawMetrics.validate (m : RawMetrics) : Except ScoringError Unit :=
  if m.governance_votes > 10000 then
    Except.error ScoringError.InvalidGovernanceVotes
  else if m.governance_proposals > 1000 then
    Except.error ScoringError.InvalidGovernanceProposals
  else if m.identity_judgements > 10 then
    Except.error ScoringError.InvalidIdentityJudgements
  else if m.community_upvotes > satMul32 m.community_posts 100 then
    Except.error ScoringError.SuspiciousUpvoteRatio
  else if m.staking_amount = 0 ∧ m.staking_duration > 0 then
    Except.error ScoringError.InvalidStakingData
  else
    Except.ok ()

/-- `RawMetrics::normalize`: clamps each out-of-range field in place.  The
source mutates fields one after another but never reads a field it already
wrote, so the parallel record update is equivalent. -/
def RawMetrics.normalize (m : RawMetrics) : RawMetrics :=
  { m with
    governance_votes := if m.governance_votes > 10000 then 10000 else m.governance_votes
    governance_proposals :=
      if m.governance_proposals > 1000 then 1000 else m.governance_proposals
    identity_judgements :=
      if m.identity_judgements > 10 then 10 else m.identity_judgements
    community_upvotes :=
      if m.community_upvotes > satMul32 m.community_posts 100 then
        satMul32 m.community_posts 100
      else m.community_upvotes
    staking_duration := if m.staking_amount = 0 then 0 else m.staking_duration }

/-- `ComputedScores` record. -/
structure ComputedScores where
  governance_score : Nat
  staking_score : Nat
  identity_score : Nat
  community_score : Nat
  total_score : Nat
  weighted_total : Nat
deriving DecidableEq, Repr

namespace ScoringEngine

/-- `ScoringEngine::safe_min`. -/
def safe_min (value mx : Nat) : Nat := if value > mx then mx else value

/-- `ScoringEngine::integer_log2`: right-shift count until `n ≤ 1`. -/
def integer_log2 (n : Nat) : Nat :=
  if n ≤ 1 then 0 else integer_log2 (n / 2) + 1
termination_by n
decreasing_by simp_wf; omega

/-- The Newton iteration inside `ScoringEngine::integer_sqrt`:
`while y < x { x = y; y = (x + n / x) / 2 }` returning `x`. -/
def sqrtLoop (n x y : Nat) : Nat :=
  if y < x then sqrtLoop n y ((y + n / y) / 2) else x
termination_by x
decreasing_by assumption

/-- `ScoringEngine::integer_sqrt`: `x = n`, `y = (x + 1) / 2`, iterate.
(Ideal-integer model; see `integer_sqrt_u64` for faithful u64 arithmetic.) -/
def integer_sqrt (n : Nat) : Nat :=
  if n = 0 then 0 else if n = 1 then 1 else sqrtLoop n n ((n + 1) / 2)

/-- `ScoringEngine::log_scale`. -/
def log_scale (value multiplier : Nat) : Nat :=
  if value = 0 then 0 else satMul32 (integer_log2 value) multiplier

/-- `ScoringEngine::sqrt_scale` (the `u64 → u32` cast of the square root is
the `% 2 ^ 32`). -/
def sqrt_scale (value multiplier : Nat) : Nat :=
  satMul32 (integer_sqrt value % 2 ^ 32) multiplier

/-- `ScoringEngine::calculate_governance_score`. -/
def calculate_governance_score (m : RawMetrics) : Except ScoringError Nat :=
  Except.ok (satAdd32 (safe_min (satMul32 m.governance_votes 2) 50)
    (safe_min (satMul32 m.governance_proposals 5) 50))

/-- `ScoringEngine::calculate_staking_score`. -/
def calculate_staking_score (m : RawMetrics) : Except ScoringError Nat :=
  if m.staking_amount = 0 then
    Except.ok 0
  else
    Except.ok (satAdd32 (min (log_scale m.staking_amount 10) 60)
      (min (sqrt_scale (m.staking_duration / 86400) 5) 40))

/-- `ScoringEngine::calculate_identity_score`. -/
def calculate_identity_score (m : RawMetrics) : Except ScoringError Nat :=
  Except.ok (satAdd32 (if m.identity_verified then 50 else 0)
    (safe_min (satMul32 m.identity_judgements 10) 50))

/-- `ScoringEngine::calculate_community_score`. -/
def calculate_community_score (m : RawMetrics) : Except ScoringError Nat :=
  Except.ok (satAdd32 (safe_min m.community_posts 40)
    (safe_min (m.community_upvotes / 2) 60))

/-- `ScoringEngine::calculate_weighted_score`: rejects invalid weights, then
divides the saturating weighted sum by `total_weight`. -/
def calculate_weighted_score (scores : ComputedScores) (weights : MetricWeights) :
    Except ScoringError Nat :=
  if !weights.validate then
    Except.error ScoringError.InvalidWeights
  else if weights.total_weight = 0 then
    Except.error ScoringError.DivisionByZero
  else
    Except.ok
      ((satAdd64
          (satAdd64
            (satAdd64 (satMul64 scores.governance_score weights.governance_weight)
              (satMul64 scores.staking_score weights.staking_weight))
            (satMul64 scores.identity_score weights.identity_weight))
          (satMul64 scores.community_score weights.community_weight))
        / weights.total_weight)

end ScoringEngine

namespace TimeDecayCalculator

/-- The daily compounding loop of `TimeDecayCalculator::calculate_decay`:
`factor = factor.saturating_mul(retention) / 100`, breaking once 0. -/
def decayLoop (retention : Nat) (factor : Nat) : Nat → Nat
  | 0 => factor
  | d + 1 =>
    let f := satMul32 factor retention / 100
    if f = 0 then 0 else decayLoop retention f d

/-- `TimeDecayCalculator::calculate_decay`. -/
def calculate_decay (elapsed_seconds : Nat) (decay_rate_percent : Nat) : Nat :=
  if 100 ≤ decay_rate_percent then 0
  else
    let days_elapsed := elapsed_seconds / 86400
    if days_elapsed = 0 then 100
    else decayLoop (100 - decay_rate_percent) 100 days_elapsed

/-- Modelled from the spec: "factor = 100 × retention^days computed
iteratively to avoid floating-point drift, stopping early once factor
reaches 0" — plain iterated integer multiplication, no saturation. -/
def specDecayLoop (retention : Nat) (factor : Nat) : Nat → Nat
  | 0 => factor
  | d + 1 =>
    let f := factor * retention / 100
    if f = 0 then 0 else specDecayLoop retention f d

end TimeDecayCalculator

/-- Faithful-u64 model of the Newton loop: the unchecked addition wraps
(`% 2 ^ 64`, Rust release semantics) and a division by zero — a Rust
panic — is `none`. -/
def sqrtLoopU64 (n x y : Nat) : Option Nat :=
  if y < x then
    if y = 0 then none
    else sqrtLoopU64 n y (((y + n / y) % 2 ^ 64) / 2)
  else some x
termination_by x
decreasing_by assumption

/-- Faithful-u64 model of `ScoringEngine::integer_sqrt`: the initial
`(x + 1) / 2` wraps on `u64::MAX`. -/
def integer_sqrt_u64 (n : Nat) : Option Nat :=
  if n = 0 then some 0
  else if n = 1 then some 1
  else sqrtLoopU64 n n (((n + 1) % 2 ^ 64) / 2)

end InkScoring

namespace CrateScoring

/-- `MetricData` from "Standalone Rust Crate scoring.rs". -/
structure MetricData where
  governance_votes : Nat
  governance_proposals : Nat
  staking_amount : Nat
  staking_duration : Nat
  identity_verified : Bool
  identity_judgements : Nat
  community_posts : Nat
  community_upvotes : Nat
deriving DecidableEq, Repr

/-- `ScoreResult` of the standalone crate. -/
structure ScoreResult where
  governance_score : Nat
  staking_score : Nat
  identity_score : Nat
  community_score : Nat
  total_score : Nat
  weighted_score : Nat
deriving DecidableEq, Repr

/-- The standalone crate's `Error` type (only the variant the scoring
module uses). -/
inductive Error where
  | InvalidInput
deriving DecidableEq, Repr

/-- `WeightConfig` of the standalone crate. -/
structure WeightConfig where
  governance_weight : Nat
  staking_weight : Nat
  identity_weight : Nat
  community_weight : Nat
deriving DecidableEq, Repr

/-- `WeightConfig::default`: `30, 30, 20, 20`. -/
def WeightConfig.default : WeightConfig :=
  { governance_weight := 30, staking_weight := 30
    identity_weight := 20, community_weight := 20 }

/-- `WeightConfig::validate`: the (wrapping `u32`) sum must be exactly 100. -/
def WeightConfig.validate (w : WeightConfig) : Except Error Unit :=
  if (w.governance_weight + w.staking_weight + w.identity_weight
      + w.community_weight) % 2 ^ 32 ≠ 100 then
    Except.error Error.InvalidInput
  else
    Except.ok ()

/-- `ScoreCalculator`. -/
structure ScoreCalculator where
  weights : WeightConfig
deriving DecidableEq, Repr

namespace ScoreCalculator

/-- `ScoreCalculator::new`. -/
def new : ScoreCalculator := { weights := WeightConfig.default }

/-- `ScoreCalculator::with_weights`: validates at construction time. -/
def with_weights (weights : WeightConfig) : Except Error ScoreCalculator :=
  match weights.validate with
  | Except.error e => Except.error e
  | Except.ok _ => Except.ok { weights := weights }

/-- `ScoreCalculator::log2` (same right-shift count as the engine's). -/
def log2 (_self : ScoreCalculator) (n : Nat) : Nat :=
  if n = 0 then 0 else InkScoring.ScoringEngine.integer_log2 n

/-- `ScoreCalculator::sqrt`: `if n < 2 { return n }`, then the same Newton
loop as the engine's. -/
def sqrt (_self : ScoreCalculator) (n : Nat) : Nat :=
  if n < 2 then n else InkScoring.ScoringEngine.sqrtLoop n n ((n + 1) / 2)

/-- `ScoreCalculator::calculate_governance` (unchecked `u32` multiplication
wraps). -/
def calculate_governance (_self : ScoreCalculator) (data : MetricData) : Nat :=
  min (data.governance_votes * 2 % 2 ^ 32) 50
    + min (data.governance_proposals * 5 % 2 ^ 32) 50

/-- `ScoreCalculator::calculate_staking`. -/
def calculate_staking (self : ScoreCalculator) (data : MetricData) : Nat :=
  if data.staking_amount = 0 then 0
  else
    min (self.log2 data.staking_amount * 10) 60
      + min (self.sqrt (data.staking_duration / 86400) % 2 ^ 32 * 5 % 2 ^ 32) 40

/-- `ScoreCalculator::calculate_identity`. -/
def calculate_identity (_self : ScoreCalculator) (data : MetricData) : Nat :=
  (if data.identity_verified then 50 else 0)
    + min (data.identity_judgements * 10 % 2 ^ 32) 50

/-- `ScoreCalculator::calculate_community`. -/
def calculate_community (_self : ScoreCalculator) (data : MetricData) : Nat :=
  min data.community_posts 40 + min (data.community_upvotes / 2) 60

/-- `ScoreCalculator::calculate_weighted`: `u64` products and sums (wrapping),
divided by the constant 100. -/
def calculate_weighted (self : ScoreCalculator) (gov stake id comm : Nat) : Nat :=
  ((gov * self.weights.governance_weight + stake * self.weights.staking_weight
      + id * self.weights.identity_weight + comm * self.weights.community_weight)
    % 2 ^ 64) / 100

/-- `ScoreCalculator::calculate`: no input validation; always `Ok`. -/
def calculate (self : ScoreCalculator) (data : MetricData) : Except Error ScoreResult :=
  let governance_score := self.calculate_governance data
  let staking_score := self.calculate_staking data
  let identity_score := self.calculate_identity data
  let community_score := self.calculate_community data
  let total_score := governance_score + staking_score + identity_score + community_score
  let weighted_score :=
    self.calculate_weighted governance_score staking_score identity_score community_score
  Except.ok
    { governance_score := governance_score
      staking_score := staking_score
      identity_score := identity_score
      community_score := community_score
      total_score := total_score
      weighted_score := weighted_score }

end ScoreCalculator

end CrateScoring

namespace RustScoringEngine

/-- `ChainData` from "Rust Scoring Engine.rs". -/
structure ChainData where
  account_id : String
  governance_votes : Nat
  governance_proposals : Nat
  staking_amount : Nat
  staking_duration : Nat
  identity_verified : Bool
  identity_judgements : Nat
  community_posts : Nat
  community_upvotes : Nat
  timestamp : Nat

/-- `ScoreBreakdown` (f64 fields modelled by `Float`). -/
structure ScoreBreakdown where
  weighted_governance : Float
  weighted_staking : Float
  weighted_identity : Float
  weighted_community : Float
  time_decay_factor : Float
  negative_adjustments : Float

/-- `ScoreResult` of the f64 engine. -/
structure ScoreResult where
  account_id : String
  total_score : Float
  governance_score : Float
  staking_score : Float
  identity_score : Float
  community_score : Float
  timestamp : Nat
  breakdown : ScoreBreakdown

/-- `ScoringConfig`. -/
structure ScoringConfig where
  governance_weight : Float
  staking_weight : Float
  identity_weight : Float
  community_weight : Float
  time_decay_enabled : Bool
  time_decay_rate : Float
  negative_scoring_enabled : Bool
  min_score : Float
  max_score : Float

/-- `ScoringConfig::default`. -/
def ScoringConfig.default : ScoringConfig :=
  { governance_weight := 0.3
    staking_weight := 0.3
    identity_weight := 0.2
    community_weight := 0.2
    time_decay_enabled := true
    time_decay_rate := 0.95
    negative_scoring_enabled := true
    min_score := 0.0
    max_score := 100.0 }

namespace GovernanceScoreMetric

/-- `GovernanceScoreMetric::calculate`. -/
def calculate (data : ChainData) (_config : ScoringConfig) : Float :=
  min (data.governance_votes.toFloat * 2.0) 50.0
    + min (data.governance_proposals.toFloat * 5.0) 50.0

/-- `GovernanceScoreMetric::validate_data`. -/
def validate_data (data : ChainData) : Except String Unit :=
  if data.governance_votes > 10000 then
    Except.error ("Unrealistic governance votes count")
  else if data.governance_proposals > 1000 then
    Except.error ("Unrealistic proposals count")
  else
    Except.ok ()

end GovernanceScoreMetric

namespace StakingScoreMetric

/-- `StakingScoreMetric::calculate`. -/
def calculate (data : ChainData) (_config : ScoringConfig) : Float :=
  min (Float.log data.staking_amount.toFloat * 10.0) 60.0
    + min (Float.sqrt (data.staking_duration.toFloat / 86400.0) * 5.0) 40.0

/-- `StakingScoreMetric::validate_data`. -/
def validate_data (data : ChainData) : Except String Unit :=
  if data.staking_amount = 0 ∧ data.staking_duration > 0 then
    Except.error ("Invalid staking data: duration without amount")
  else
    Except.ok ()

end StakingScoreMetric

namespace IdentityScoreMetric

/-- `IdentityScoreMetric::calculate`. -/
def calculate (data : ChainData) (_config : ScoringConfig) : Float :=
  (if data.identity_verified then 50.0 else 0.0)
    + min (data.identity_judgements.toFloat * 10.0) 50.0

/-- `IdentityScoreMetric::validate_data`. -/
def validate_data (data : ChainData) : Except String Unit :=
  if data.identity_judgements > 10 then
    Except.error ("Unrealistic judgements count")
  else
    Except.ok ()

end IdentityScoreMetric

namespace CommunityScoreMetric

/-- `CommunityScoreMetric::calculate`. -/
def calculate (data : ChainData) (_config : ScoringConfig) : Float :=
  min (data.community_posts.toFloat * 1.0) 40.0
    + min (data.community_upvotes.toFloat * 0.5) 60.0

/-- `CommunityScoreMetric::validate_data` (unchecked `u32` multiplication
`posts * 100` wraps). -/
def validate_data (data : ChainData) : Except String Unit :=
  if data.community_upvotes > data.community_posts * 100 % 2 ^ 32 then
    Except.error ("Suspicious upvote ratio")
  else
    Except.ok ()

end CommunityScoreMetric

/-- The engine: configuration plus the per-account score history.  The Rust
`HashMap<String, Vec<ScoreResult>>` is modelled as a total function with
missing keys mapped to `[]`, which is exactly how the source reads it
(`get` returning `None` is treated like an empty history) and writes it
(`entry(..).or_insert_with(Vec::new)`). -/
structure ScoringEngine where
  config : ScoringConfig
  score_history : String → List ScoreResult

/-- The `for metric in &self.metrics { metric.validate_data(&data)?; }` loop:
governance, staking, identity, community, in vector order. -/
def validate_all (data : ChainData) : Except String Unit := do
  GovernanceScoreMetric.validate_data data
  StakingScoreMetric.validate_data data
  IdentityScoreMetric.validate_data data
  CommunityScoreMetric.validate_data data

/-- `ScoringEngine::apply_time_decay`. -/
def ScoringEngine.apply_time_decay (self : ScoringEngine) (account_id : String)
    (current_timestamp : Nat) : Float :=
  match (self.score_history account_id).getLast? with
  | some last_score =>
    Float.pow self.config.time_decay_rate
      ((current_timestamp - last_score.timestamp).toFloat / 86400.0)
  | none => 1.0

/-- `ScoringEngine::calculate_negative_adjustments`. -/
def ScoringEngine.calculate_negative_adjustments (_self : ScoringEngine)
    (data : ChainData) : Float :=
  (if !data.identity_verified then 5.0 else 0.0)
    + (if data.governance_votes = 0 ∧ data.governance_proposals = 0 then 3.0 else 0.0)
    + (if data.staking_amount = 0 then 2.0 else 0.0)

/-- `ScoringEngine::store_score_history`: push onto the account's entry. -/
def ScoringEngine.store_score_history (self : ScoringEngine) (result : ScoreResult) :
    ScoringEngine :=
  { self with
    score_history := fun a =>
      if a = result.account_id then self.score_history a ++ [result]
      else self.score_history a }

/-- `ScoringEngine::calculate_score`: validate, transform, weight, decay,
penalize, clamp, store.  Returns the Rust result together with the updated
engine state. -/
def ScoringEngine.calculate_score (self : ScoringEngine) (data : ChainData) :
    Except String ScoreResult × ScoringEngine :=
  match validate_all data with
  | Except.error e => (Except.error e, self)
  | Except.ok _ =>
    let governance_score := GovernanceScoreMetric.calculate data self.config
    let staking_score := StakingScoreMetric.calculate data self.config
    let identity_score := IdentityScoreMetric.calculate data self.config
    let community_score := CommunityScoreMetric.calculate data self.config
    let weighted_governance := governance_score * self.config.governance_weight
    let weighted_staking := staking_score * self.config.staking_weight
    let weighted_identity := identity_score * self.config.identity_weight
    let weighted_community := community_score * self.config.community_weight
    let total0 := weighted_governance + weighted_staking
      + weighted_identity + weighted_community
    let time_decay_factor :=
      if self.config.time_decay_enabled then
        self.apply_time_decay data.account_id data.timestamp
      else 1.0
    let total1 := total0 * time_decay_factor
    let negative_adjustments :=
      if self.config.negative_scoring_enabled then
        self.calculate_negative_adjustments data
      else 0.0
    let total2 := total1 - negative_adjustments
    let total_score := min (max total2 self.config.min_score) self.config.max_score
    let result : ScoreResult :=
      { account_id := data.account_id
        total_score := total_score
        governance_score := governance_score
        staking_score := staking_score
        identity_score := identity_score
        community_score := community_score
        timestamp := data.timestamp
        breakdown :=
          { weighted_governance := weighted_governance
            weighted_staking := weighted_staking
            weighted_identity := weighted_identity
            weighted_community := weighted_community
            time_decay_factor := time_decay_factor
            negative_adjustments := negative_adjustments } }
    (Except.ok result, self.store_score_history result)

/-- `ScoringEngine::clear_old_history`: prunes EVERY account's history,
keeping snapshots with `current_timestamp.saturating_sub(timestamp)
<= max_age_seconds`; it takes no account identifier and returns no count. -/
def ScoringEngine.clear_old_history (self : ScoringEngine)
    (max_age_seconds current_timestamp : Nat) : ScoringEngine :=
  { self with
    score_history := fun a =>
      (self.score_history a).filter
        (fun score => decide (current_timestamp - score.timestamp ≤ max_age_seconds)) }

end RustScoringEngine

/-! ## Helper lemmas -/

theorem safe_min_le (v mx : Nat) : InkScoring.ScoringEngine.safe_min v mx ≤ mx := by
  unfold InkScoring.ScoringEngine.safe_min
  split <;> omega

theorem satAdd32_le (a b : Nat) : satAdd32 a b ≤ a + b := by
  unfold satAdd32
  omega

/-! ## C1 -/

/-- C1: for every `RawMetrics` that passes validation, each of the four
component scores computed by the ink-scoring `ScoringEngine` transforms is
within `[0, 100]` (scores are naturals, so `0 ≤ s` is automatic and
`s ≤ 100` is what is proved). -/
theorem C1_component_scores_bounded (m : InkScoring.RawMetrics)
    (_h : m.validate = Except.ok ()) :
    (∃ g, InkScoring.ScoringEngine.calculate_governance_score m = Except.ok g ∧ g ≤ 100) ∧
    (∃ s, InkScoring.ScoringEngine.calculate_staking_score m = Except.ok s ∧ s ≤ 100) ∧
    (∃ i, InkScoring.ScoringEngine.calculate_identity_score m = Except.ok i ∧ i ≤ 100) ∧
    (∃ c, InkScoring.ScoringEngine.calculate_community_score m = Except.ok c ∧ c ≤ 100) := by
  refine ⟨⟨_, rfl, ?_⟩, ?_, ⟨_, rfl, ?_⟩, ⟨_, rfl, ?_⟩⟩
  · have h1 := safe_min_le (satMul32 m.governance_votes 2) 50
    have h2 := safe_min_le (satMul32 m.governance_proposals 5) 50
    have h3 := satAdd32_le (InkScoring.ScoringEngine.safe_min (satMul32 m.governance_votes 2) 50)
      (InkScoring.ScoringEngine.safe_min (satMul32 m.governance_proposals 5) 50)
    omega
  · unfold InkScoring.ScoringEngine.calculate_staking_score
    split
    · exact ⟨0, rfl, by omega⟩
    · refine ⟨_, rfl, ?_⟩
      have h1 : min (InkScoring.ScoringEngine.log_scale m.staking_amount 10) 60 ≤ 60 :=
        min_le_right _ _
      have h2 : min (InkScoring.ScoringEngine.sqrt_scale (m.staking_duration / 86400) 5) 40 ≤ 40 :=
        min_le_right _ _
      have h3 := satAdd32_le (min (InkScoring.ScoringEngine.log_scale m.staking_amount 10) 60)
        (min (InkScoring.ScoringEngine.sqrt_scale (m.staking_duration / 86400) 5) 40)
      omega
  · have h1 : (if m.identity_verified then 50 else 0) ≤ 50 := by split <;> omega
    have h2 := safe_min_le (satMul32 m.identity_judgements 10) 50
    have h3 := satAdd32_le (if m.identity_verified then 50 else 0)
      (InkScoring.ScoringEngine.safe_min (satMul32 m.identity_judgements 10) 50)
    omega
  · have h1 := safe_min_le m.community_posts 40
    have h2 := safe_min_le (m.community_upvotes / 2) 60
    have h3 := satAdd32_le (InkScoring.ScoringEngine.safe_min m.community_posts 40)
      (InkScoring.ScoringEngine.safe_min (m.community_upvotes / 2) 60)
    omega

/-- C1 witness: the spec's sample metrics pass validation and every
component score is within bounds at that input. -/
theorem C1_component_scores_bounded_witness :
    InkScoring.RawMetrics.validate
      { governance_votes := 50, governance_proposals := 5
        staking_amount := 1000000000000, staking_duration := 2592000
        identity_verified := true, identity_judgements := 2
        community_posts := 100, community_upvotes := 500 } = Except.ok () ∧
    ((∃ g, InkScoring.ScoringEngine.calculate_governance_score
        { governance_votes := 50, governance_proposals := 5
          staking_amount := 1000000000000, staking_duration := 2592000
          identity_verified := true, identity_judgements := 2
          community_posts := 100, community_upvotes := 500 } = Except.ok g ∧ g ≤ 100) ∧
      (∃ s, InkScoring.ScoringEngine.calculate_staking_score
        { governance_votes := 50, governance_proposals := 5
          staking_amount := 1000000000000, staking_duration := 2592000
          identity_verified := true, identity_judgements := 2
          community_posts := 100, community_upvotes := 500 } = Except.ok s ∧ s ≤ 100) ∧
      (∃ i, InkScoring.ScoringEngine.calculate_identity_score
        { governance_votes := 50, governance_proposals := 5
          staking_amount := 1000000000000, staking_duration := 2592000
          identity_verified := true, identity_judgements := 2
          community_posts := 100, community_upvotes := 500 } = Except.ok i ∧ i ≤ 100) ∧
      (∃ c, InkScoring.ScoringEngine.calculate_community_score
        { governance_votes := 50, governance_proposals := 5
          staking_amount := 1000000000000, staking_duration := 2592000
          identity_verified := true, identity_judgements := 2
          community_posts := 100, community_upvotes := 500 } = Except.ok c ∧ c ≤ 100)) :=
  ⟨rfl, C1_component_scores_bounded _ rfl⟩

/-! ## C2 -/

/-- C2 counterexample: validation does not succeed exactly when the four
weights sum to exactly 100.  `MetricWeights::new` computes the total with
unchecked `u32` addition, which wraps: the representable weight set
`(u32::MAX, 0, 0, 101)` has true sum `2^32 + 100`, yet its wrapped total is
100 and `validate()` succeeds. -/
theorem C2_wrapping_sum_counterexample :
    (InkScoring.MetricWeights.new (2 ^ 32 - 1) 0 0 101).validate = true ∧
    (2 ^ 32 - 1) + 0 + 0 + 101 ≠ 100 := by
  constructor
  · rfl
  · decide

/-- C2 (amended): weight validation succeeds exactly when the wrapping
`u32` sum of the four weights equals 100; for weight sets whose true sum
does not overflow `u32` this is exactly "the four weights sum to exactly
100" (so `{30, 30, 20, 15}`, summing to 95, fails validation), and the
weighted-combination computation returns the `InvalidWeights` error for
any weight set failing validation instead of silently renormalizing by the
actual sum. -/
theorem C2_weight_validation (g s i c : Nat) (scores : InkScoring.ComputedScores) :
    ((InkScoring.MetricWeights.new g s i c).validate = true ↔
      (g + s + i + c) % 2 ^ 32 = 100) ∧
    (g + s + i + c < 2 ^ 32 →
      ((InkScoring.MetricWeights.new g s i c).validate = true ↔ g + s + i + c = 100)) ∧
    (∀ w : InkScoring.MetricWeights, w.validate = false →
      InkScoring.ScoringEngine.calculate_weighted_score scores w =
        Except.error InkScoring.ScoringError.InvalidWeights) := by
  have hwrap : (InkScoring.MetricWeights.new g s i c).validate = true ↔
      (g + s + i + c) % 2 ^ 32 = 100 := by
    simp only [InkScoring.MetricWeights.validate, InkScoring.MetricWeights.new,
      Bool.and_eq_true, bne_iff_ne, ne_eq, beq_iff_eq]
    omega
  refine ⟨hwrap, fun h => ?_, fun w hw => ?_⟩
  · rw [hwrap, Nat.mod_eq_of_lt h]
  · unfold InkScoring.ScoringEngine.calculate_weighted_score
    rw [hw]
    rfl

/-- C2 witness: the scenario weights `{30, 30, 20, 15}` (sum 95) fail
validation, and the weighted combination on them returns `InvalidWeights`. -/
theorem C2_weight_validation_witness :
    ¬((InkScoring.MetricWeights.new 30 30 20 15).validate = true) ∧
    InkScoring.ScoringEngine.calculate_weighted_score
      { governance_score := 75, staking_score := 85, identity_score := 70
        community_score := 100, total_score := 330, weighted_total := 0 }
      (InkScoring.MetricWeights.new 30 30 20 15) =
      Except.error InkScoring.ScoringError.InvalidWeights :=
  ⟨fun hv => by
      have := ((C2_weight_validation 30 30 20 15
        { governance_score := 75, staking_score := 85, identity_score := 70
          community_score := 100, total_score := 330, weighted_total := 0 }).2.1
        (by decide)).mp hv
      omega,
    (C2_weight_validation 30 30 20 15
      { governance_score := 75, staking_score := 85, identity_score := 70
        community_score := 100, total_score := 330, weighted_total := 0 }).2.2 _ (by decide)⟩

/-! ## C4 -/

/-- C4: `RawMetrics::validate` returns each error exactly under its
condition, checked in source priority order, and `Ok` when no condition
holds.  (`community_upvotes < 2 ^ 32` reflects its `u32` range, under which
the saturating `posts * 100` check coincides with the plain product.) -/
theorem C4_validate_exact (m : InkScoring.RawMetrics)
    (hup : m.community_upvotes < 2 ^ 32) :
    (m.validate = Except.error InkScoring.ScoringError.InvalidGovernanceVotes ↔
      10000 < m.governance_votes) ∧
    (m.validate = Except.error InkScoring.ScoringError.InvalidGovernanceProposals ↔
      m.governance_votes ≤ 10000 ∧ 1000 < m.governance_proposals) ∧
    (m.validate = Except.error InkScoring.ScoringError.InvalidIdentityJudgements ↔
      m.governance_votes ≤ 10000 ∧ m.governance_proposals ≤ 1000 ∧
      10 < m.identity_judgements) ∧
    (m.validate = Except.error InkScoring.ScoringError.SuspiciousUpvoteRatio ↔
      m.governance_votes ≤ 10000 ∧ m.governance_proposals ≤ 1000 ∧
      m.identity_judgements ≤ 10 ∧ m.community_posts * 100 < m.community_upvotes) ∧
    (m.validate = Except.error InkScoring.ScoringError.InvalidStakingData ↔
      m.governance_votes ≤ 10000 ∧ m.governance_proposals ≤ 1000 ∧
      m.identity_judgements ≤ 10 ∧ m.community_upvotes ≤ m.community_posts * 100 ∧
      m.staking_amount = 0 ∧ 0 < m.staking_duration) ∧
    (m.validate = Except.ok () ↔
      m.governance_votes ≤ 10000 ∧ m.governance_proposals ≤ 1000 ∧
      m.identity_judgements ≤ 10 ∧ m.community_upvotes ≤ m.community_posts * 100 ∧
      ¬(m.staking_amount = 0 ∧ 0 < m.staking_duration)) := by
  unfold InkScoring.RawMetrics.validate
  simp only [satMul32, u32Max, gt_iff_lt]
  split_ifs <;> simp_all <;> omega

/-- C4 witness: a concrete in-range metrics record validates `Ok`, and the
spec scenario `governance_votes = 20000` yields the governance-votes
error. -/
theorem C4_validate_exact_witness :
    InkScoring.RawMetrics.validate
      { governance_votes := 50, governance_proposals := 5
        staking_amount := 1000000000000, staking_duration := 2592000
        identity_verified := true, identity_judgements := 2
        community_posts := 100, community_upvotes := 500 } = Except.ok () ∧
    InkScoring.RawMetrics.validate
      { governance_votes := 20000, governance_proposals := 5
        staking_amount := 1000000000000, staking_duration := 2592000
        identity_verified := true, identity_judgements := 2
        community_posts := 100, community_upvotes := 500 } =
      Except.error InkScoring.ScoringError.InvalidGovernanceVotes :=
  ⟨(C4_validate_exact
      { governance_votes := 50, governance_proposals := 5
        staking_amount := 1000000000000, staking_duration := 2592000
        identity_verified := true, identity_judgements := 2
        community_posts := 100, community_upvotes := 500 } (by decide)).2.2.2.2.2.mpr
      (by decide),
    (C4_validate_exact
      { governance_votes := 20000, governance_proposals := 5
        staking_amount := 1000000000000, staking_duration := 2592000
        identity_verified := true, identity_judgements := 2
        community_posts := 100, community_upvotes := 500 } (by decide)).1.mpr
      (by decide)⟩

/-! ## C7 -/

/-- C7: normalization is idempotent:
`normalize (normalize m) = normalize m` for every `RawMetrics`. -/
theorem C7_normalize_idempotent (m : InkScoring.RawMetrics) :
    (m.normalize).normalize = m.normalize := by
  cases m
  simp only [InkScoring.RawMetrics.normalize, InkScoring.RawMetrics.mk.injEq, satMul32, u32Max]
  refine ⟨?_, ?_, trivial, ?_, trivial, ?_, trivial, ?_⟩ <;> split_ifs <;> omega

/-! ## C10 -/

/-- C10: the standalone crate's `ScoreCalculator::calculate` returns `Ok`
for every `MetricData` input — no validation or rejection happens at this
scoring interface. -/
theorem C10_calculate_always_ok (c : CrateScoring.ScoreCalculator)
    (d : CrateScoring.MetricData) :
    ∃ r, c.calculate d = Except.ok r :=
  ⟨_, rfl⟩

/-! ## C3 -/

theorem decayLoop_eq_spec (ret : Nat) (hret : ret ≤ 100) :
    ∀ (d f : Nat), f ≤ 100 →
      InkScoring.TimeDecayCalculator.decayLoop ret f d =
        InkScoring.TimeDecayCalculator.specDecayLoop ret f d
  | 0, _, _ => rfl
  | d + 1, f, hf => by
    simp only [InkScoring.TimeDecayCalculator.decayLoop,
      InkScoring.TimeDecayCalculator.specDecayLoop]
    have hprod : f * ret ≤ 10000 := Nat.mul_le_mul hf hret
    have hsat : satMul32 f ret = f * ret := by
      unfold satMul32 u32Max
      omega
    rw [hsat]
    have hf2 : f * ret / 100 ≤ 100 := by omega
    split
    · rfl
    · exact decayLoop_eq_spec ret hret d (f * ret / 100) hf2

/-- C3 (amended): the time-decay function returns 0 whenever the daily
rate parameter is at least 100 (this check has priority, so it also
applies at elapsed 0); returns 100 when the rate is below 100 and
`elapsed_seconds / 86400 = 0`; and otherwise compounds
`100 × retention^days` by iterated integer multiplication with early stop
at 0, where `retention = 100 - rate` (the saturating multiplication in the
code never saturates because the factor stays at most 100). -/
theorem C3_decay_policy (e r : Nat) :
    (100 ≤ r → InkScoring.TimeDecayCalculator.calculate_decay e r = 0) ∧
    (r < 100 → e / 86400 = 0 → InkScoring.TimeDecayCalculator.calculate_decay e r = 100) ∧
    (r < 100 → 0 < e / 86400 →
      InkScoring.TimeDecayCalculator.calculate_decay e r =
        InkScoring.TimeDecayCalculator.specDecayLoop (100 - r) 100 (e / 86400)) := by
  refine ⟨fun h => ?_, fun h1 h2 => ?_, fun h1 h2 => ?_⟩
  · unfold InkScoring.TimeDecayCalculator.calculate_decay
    rw [if_pos h]
  · unfold InkScoring.TimeDecayCalculator.calculate_decay
    rw [if_neg (by omega), if_pos h2]
  · unfold InkScoring.TimeDecayCalculator.calculate_decay
    rw [if_neg (by omega), if_neg (by omega)]
    exact decayLoop_eq_spec (100 - r) (by omega) (e / 86400) 100 (by omega)

/-- C3 witness: each branch of the amended decay policy at a concrete
input. -/
theorem C3_decay_policy_witness :
    InkScoring.TimeDecayCalculator.calculate_decay 5 100 = 0 ∧
    InkScoring.TimeDecayCalculator.calculate_decay 86399 30 = 100 ∧
    InkScoring.TimeDecayCalculator.calculate_decay 172800 50 =
      InkScoring.TimeDecayCalculator.specDecayLoop 50 100 2 :=
  ⟨(C3_decay_policy 5 100).1 (by decide),
    (C3_decay_policy 86399 30).2.1 (by decide) (by decide),
    (C3_decay_policy 172800 50).2.2 (by decide) (by decide)⟩

/-- C3 counterexample: the claim asserts `decay(elapsed = 0, r) = 100` for
every `r`, but the rate-at-least-100 check runs first, so
`decay(0, 100) = 0`, not 100. -/
theorem C3_decay_zero_elapsed_counterexample :
    InkScoring.TimeDecayCalculator.calculate_decay 0 100 = 0 ∧
    InkScoring.TimeDecayCalculator.calculate_decay 0 100 ≠ 100 := by
  constructor
  · rfl
  · intro h
    simp [InkScoring.TimeDecayCalculator.calculate_decay] at h

/-! ## C5 -/

/-- C5: if validation fails, `calculate_score` returns the validation error
and leaves the engine state — in particular every account's score
history — completely unchanged; on success it returns a snapshot and the
only state change is appending that snapshot to the scored account's
history. -/
theorem C5_no_store_on_validation_failure (eng : RustScoringEngine.ScoringEngine)
    (d : RustScoringEngine.ChainData) :
    (∀ e, RustScoringEngine.validate_all d = Except.error e →
      eng.calculate_score d = (Except.error e, eng)) ∧
    (RustScoringEngine.validate_all d = Except.ok () →
      ∃ r : RustScoringEngine.ScoreResult, r.account_id = d.account_id ∧
        eng.calculate_score d =
          (Except.ok r,
            { eng with
              score_history := fun a =>
                if a = d.account_id then eng.score_history a ++ [r]
                else eng.score_history a })) := by
  constructor
  · intro e he
    unfold RustScoringEngine.ScoringEngine.calculate_score
    rw [he]
  · intro hok
    unfold RustScoringEngine.ScoringEngine.calculate_score
    rw [hok]
    exact ⟨_, rfl, rfl⟩

/-- C5 witness: a concrete invalid request (20000 governance votes) returns
the governance validation error and leaves a concrete engine state
untouched. -/
theorem C5_no_store_on_validation_failure_witness :
    RustScoringEngine.validate_all
      { account_id := ("alice"), governance_votes := 20000, governance_proposals := 5
        staking_amount := 1000, staking_duration := 86400
        identity_verified := true, identity_judgements := 2
        community_posts := 10, community_upvotes := 50, timestamp := 1000 } =
      Except.error ("Unrealistic governance votes count") ∧
    RustScoringEngine.ScoringEngine.calculate_score
      { config := RustScoringEngine.ScoringConfig.default, score_history := fun _ => [] }
      { account_id := ("alice"), governance_votes := 20000, governance_proposals := 5
        staking_amount := 1000, staking_duration := 86400
        identity_verified := true, identity_judgements := 2
        community_posts := 10, community_upvotes := 50, timestamp := 1000 } =
      (Except.error ("Unrealistic governance votes count"),
        { config := RustScoringEngine.ScoringConfig.default, score_history := fun _ => [] }) :=
  ⟨rfl,
    (C5_no_store_on_validation_failure
      { config := RustScoringEngine.ScoringConfig.default, score_history := fun _ => [] }
      { account_id := ("alice"), governance_votes := 20000, governance_proposals := 5
        staking_amount := 1000, staking_duration := 86400
        identity_verified := true, identity_judgements := 2
        community_posts := 10, community_upvotes := 50, timestamp := 1000 }).1 _ rfl⟩

/-! ## C6 -/

/-- A concrete snapshot for account "a", recent (timestamp 95). -/
def sampleSnapshotA : RustScoringEngine.ScoreResult :=
  { account_id := ("a"), total_score := 50.0, governance_score := 10.0
    staking_score := 10.0, identity_score := 20.0, community_score := 10.0
    timestamp := 95
    breakdown :=
      { weighted_governance := 3.0, weighted_staking := 3.0, weighted_identity := 4.0
        weighted_community := 2.0, time_decay_factor := 1.0
        negative_adjustments := 0.0 } }

/-- A concrete snapshot for account "b", old (timestamp 5). -/
def sampleSnapshotB : RustScoringEngine.ScoreResult :=
  { account_id := ("b"), total_score := 50.0, governance_score := 10.0
    staking_score := 10.0, identity_score := 20.0, community_score := 10.0
    timestamp := 5
    breakdown :=
      { weighted_governance := 3.0, weighted_staking := 3.0, weighted_identity := 4.0
        weighted_community := 2.0, time_decay_factor := 1.0
        negative_adjustments := 0.0 } }

/-- A concrete engine holding one snapshot for account "a" and one for
account "b". -/
def sampleEngine : RustScoringEngine.ScoringEngine :=
  { config := RustScoringEngine.ScoringConfig.default
    score_history := fun a =>
      if a = ("a") then [sampleSnapshotA]
      else if a = ("b") then [sampleSnapshotB] else [] }

/-- C6 counterexample: the pruning operation takes no account identifier —
pruning with `max_age = 10` at time 100 empties account "b"'s history (its
snapshot is older than the window) even though the caller could only have
"given" some single account such as "a"; no other-account history is left
unchanged, and no removal count is returned (the result is the whole
engine state). -/
theorem C6_prunes_other_accounts_counterexample :
    (sampleEngine.clear_old_history 10 100).score_history ("b") = [] ∧
    sampleEngine.score_history ("b") ≠ [] ∧
    (sampleEngine.clear_old_history 10 100).score_history ("a") = [sampleSnapshotA] := by
  refine ⟨rfl, ?_, rfl⟩
  simp [sampleEngine]

/-- C6 (amended): `clear_old_history(max_age_seconds, now)` takes no
account identifier and returns no count; it prunes every account's
history, keeping exactly the snapshots whose age `now − timestamp`
(saturating subtraction) is at most `max_age_seconds`, and never edits a
kept snapshot (the pruned history is a sublist of the original). -/
theorem C6_clear_old_history_semantics (eng : RustScoringEngine.ScoringEngine)
    (maxAge now : Nat) (a : String) :
    (∀ s : RustScoringEngine.ScoreResult,
      s ∈ (eng.clear_old_history maxAge now).score_history a ↔
        s ∈ eng.score_history a ∧ now - s.timestamp ≤ maxAge) ∧
    List.Sublist ((eng.clear_old_history maxAge now).score_history a)
      (eng.score_history a) := by
  constructor
  · intro s
    simp [RustScoringEngine.ScoringEngine.clear_old_history, List.mem_filter]
  · exact List.filter_sublist _

/-! ## C8 -/

theorem integer_log2_mono (a b : Nat) (h : a ≤ b) :
    InkScoring.ScoringEngine.integer_log2 a ≤ InkScoring.ScoringEngine.integer_log2 b := by
  induction b using Nat.strong_induction_on generalizing a with
  | _ b ih =>
    unfold InkScoring.ScoringEngine.integer_log2
    split_ifs with ha hb hb
    · exact Nat.le_refl 0
    · exact Nat.zero_le _
    · omega
    · have := ih (b / 2) (by omega) (a / 2) (Nat.div_le_div_right h)
      omega

theorem satMul32_mono_left (a a' c : Nat) (h : a ≤ a') : satMul32 a c ≤ satMul32 a' c := by
  have hm : a * c ≤ a' * c := Nat.mul_le_mul_right c h
  unfold satMul32
  omega

theorem log_scale_mono (a a' c : Nat) (h : a ≤ a') :
    InkScoring.ScoringEngine.log_scale a c ≤ InkScoring.ScoringEngine.log_scale a' c := by
  unfold InkScoring.ScoringEngine.log_scale
  split_ifs with h1 h2 h2
  · exact Nat.le_refl 0
  · exact Nat.zero_le _
  · omega
  · exact satMul32_mono_left _ _ _ (integer_log2_mono a a' h)

/-- C8: the staking component score is monotonically non-decreasing in the
staking amount (duration and all other fields held fixed), and a zero
staking amount scores exactly 0. -/
theorem C8_staking_score_monotone (m : InkScoring.RawMetrics) (a1 a2 : Nat)
    (h : a1 ≤ a2) :
    (∃ s1 s2,
      InkScoring.ScoringEngine.calculate_staking_score { m with staking_amount := a1 } =
        Except.ok s1 ∧
      InkScoring.ScoringEngine.calculate_staking_score { m with staking_amount := a2 } =
        Except.ok s2 ∧
      s1 ≤ s2) ∧
    InkScoring.ScoringEngine.calculate_staking_score { m with staking_amount := 0 } =
      Except.ok 0 := by
  constructor
  · unfold InkScoring.ScoringEngine.calculate_staking_score
    by_cases h1 : a1 = 0
    · subst h1
      simp only [if_pos rfl]
      by_cases h2 : a2 = 0
      · subst h2
        exact ⟨0, 0, rfl, rfl, Nat.le_refl 0⟩
      · simp only [if_neg h2]
        exact ⟨0, _, rfl, rfl, Nat.zero_le _⟩
    · have h2 : a2 ≠ 0 := by omega
      simp only [if_neg h1, if_neg h2]
      refine ⟨_, _, rfl, rfl, ?_⟩
      have hlog := log_scale_mono a1 a2 10 h
      have hmin : min (InkScoring.ScoringEngine.log_scale a1 10) 60 ≤
          min (InkScoring.ScoringEngine.log_scale a2 10) 60 := by omega
      unfold satAdd32
      omega
  · unfold InkScoring.ScoringEngine.calculate_staking_score
    simp

/-- C8 witness: staking score at amount 4 is at most the score at amount
1024 (same duration), and amount 0 scores 0. -/
theorem C8_staking_score_monotone_witness :
    (∃ s1 s2,
      InkScoring.ScoringEngine.calculate_staking_score
        { governance_votes := 50, governance_proposals := 5
          staking_amount := 4, staking_duration := 2592000
          identity_verified := true, identity_judgements := 2
          community_posts := 100, community_upvotes := 500 } = Except.ok s1 ∧
      InkScoring.ScoringEngine.calculate_staking_score
        { governance_votes := 50, governance_proposals := 5
          staking_amount := 1024, staking_duration := 2592000
          identity_verified := true, identity_judgements := 2
          community_posts := 100, community_upvotes := 500 } = Except.ok s2 ∧
      s1 ≤ s2) ∧
    InkScoring.ScoringEngine.calculate_staking_score
      { governance_votes := 50, governance_proposals := 5
        staking_amount := 0, staking_duration := 2592000
        identity_verified := true, identity_judgements := 2
        community_posts := 100, community_upvotes := 500 } = Except.ok 0 :=
  C8_staking_score_monotone
    { governance_votes := 50, governance_proposals := 5
      staking_amount := 7, staking_duration := 2592000
      identity_verified := true, identity_judgements := 2
      community_posts := 100, community_upvotes := 500 } 4 1024 (by decide)

/-! ## C9 -/

/-- Integer AM-GM bound: for `x ≥ 1` the next Newton iterate
`(x + n / x) / 2` stays at or above the integer square root of `n`. -/
theorem sqrt_iter_lower_bound (n x : Nat) (hx : 1 ≤ x) :
    n < ((x + n / x) / 2 + 1) * ((x + n / x) / 2 + 1) := by
  set q := n / x with hq
  set y := (x + q) / 2 with hy
  have h1 : x + q < 2 * (y + 1) := by omega
  have h2 : n < x * (q + 1) := by
    have hdm := Nat.div_add_mod n x
    have hmod : n % x < x := Nat.mod_lt n (by omega)
    have hexp : x * (q + 1) = x * q + x := by ring
    rw [hq] at hexp ⊢
    omega
  zify at h1 h2 ⊢
  nlinarith [sq_nonneg ((x : ℤ) - (q : ℤ) - 1), h1, h2]

theorem sqrtLoop_correct (n : Nat) (hn : 1 ≤ n) :
    ∀ x, 1 ≤ x → n < (x + 1) * (x + 1) →
      InkScoring.ScoringEngine.sqrtLoop n x ((x + n / x) / 2) *
          InkScoring.ScoringEngine.sqrtLoop n x ((x + n / x) / 2) ≤ n ∧
        n < (InkScoring.ScoringEngine.sqrtLoop n x ((x + n / x) / 2) + 1) *
          (InkScoring.ScoringEngine.sqrtLoop n x ((x + n / x) / 2) + 1) := by
  intro x
  induction x using Nat.strong_induction_on with
  | _ x ih =>
    intro hx hinv
    unfold InkScoring.ScoringEngine.sqrtLoop
    set y := (x + n / x) / 2 with hy
    by_cases hlt : y < x
    · rw [if_pos hlt]
      have hy1 : 1 ≤ y := by
        rcases Nat.eq_zero_or_pos y with h0 | h1
        · exfalso
          have hdiv0 : (x + n / x) / 2 = 0 := hy.symm.trans h0
          have hsum : x + n / x < 2 := by
            rcases Nat.lt_or_ge (x + n / x) 2 with hc | hc
            · exact hc
            · exact absurd hdiv0 (by
                have : 1 ≤ (x + n / x) / 2 := (Nat.le_div_iff_mul_le (by norm_num)).mpr (by omega)
                omega)
          have hxlt : x < 2 := Nat.lt_of_le_of_lt (Nat.le_add_right x (n / x)) hsum
          have hx1 : x = 1 := by omega
          rw [hx1, Nat.div_one] at hsum
          have hn0 : n = 0 := by omega
          omega
        · exact h1
      have hinv' : n < (y + 1) * (y + 1) := by
        rw [hy]
        exact sqrt_iter_lower_bound n x hx
      exact ih y hlt hy1 hinv'
    · rw [if_neg hlt]
      have hxy : x ≤ y := Nat.le_of_not_lt hlt
      have h2x' : x * 2 ≤ x + n / x := (Nat.le_div_iff_mul_le (by norm_num)).mp (hy ▸ hxy)
      have h2x : x ≤ n / x := by omega
      have hsq : x * x ≤ x * (n / x) := Nat.mul_le_mul_left x h2x
      have hdiv : x * (n / x) ≤ n := Nat.mul_div_le n x
      exact ⟨Nat.le_trans hsq hdiv, hinv⟩

theorem integer_sqrt_correct (n : Nat) :
    InkScoring.ScoringEngine.integer_sqrt n * InkScoring.ScoringEngine.integer_sqrt n ≤ n ∧
      n < (InkScoring.ScoringEngine.integer_sqrt n + 1) *
        (InkScoring.ScoringEngine.integer_sqrt n + 1) := by
  unfold InkScoring.ScoringEngine.integer_sqrt
  split_ifs with h0 h1
  · omega
  · omega
  · have hn2 : 2 ≤ n := by omega
    have hstart : n < (n + 1) * (n + 1) := by nlinarith
    have := sqrtLoop_correct n (by omega) n (by omega) hstart
    rwa [Nat.div_self (by omega : 0 < n)] at this

theorem integer_log2_spec (n : Nat) (h : 1 ≤ n) :
    2 ^ InkScoring.ScoringEngine.integer_log2 n ≤ n ∧
      n < 2 ^ (InkScoring.ScoringEngine.integer_log2 n + 1) := by
  induction n using Nat.strong_induction_on with
  | _ n ih =>
    unfold InkScoring.ScoringEngine.integer_log2
    split_ifs with h1
    · norm_num
      omega
    · have h2 : 2 ≤ n := by omega
      have := ih (n / 2) (by omega) (by omega)
      rw [pow_succ, pow_succ, pow_succ]
      set P := 2 ^ InkScoring.ScoringEngine.integer_log2 (n / 2) with hP
      rw [pow_succ] at this
      omega

theorem sqrtLoopU64_eq (n : Nat) (hn : 1 ≤ n) (hn2 : n ≤ 2 ^ 64 - 2) :
    ∀ x y, n < (y + 1) * (y + 1) → y ≤ 2 ^ 63 - 1 →
      InkScoring.sqrtLoopU64 n x y = some (InkScoring.ScoringEngine.sqrtLoop n x y) := by
  intro x
  induction x using Nat.strong_induction_on with
  | _ x ih =>
    intro y hinv hyb
    unfold InkScoring.sqrtLoopU64 InkScoring.ScoringEngine.sqrtLoop
    by_cases hlt : y < x
    · rw [if_pos hlt, if_pos hlt]
      have hy1 : 1 ≤ y := by
        rcases Nat.eq_zero_or_pos y with h0 | h1
        · subst h0
          simp at hinv
          omega
        · exact h1
      rw [if_neg (by omega : ¬y = 0)]
      have hdivle : n / y ≤ y + 2 := by
        have hle : n ≤ y * (y + 2) := by nlinarith [hinv]
        calc n / y ≤ y * (y + 2) / y := Nat.div_le_div_right hle
          _ = y + 2 := Nat.mul_div_cancel_left _ hy1
      have hno : y + n / y < 2 ^ 64 := by
        by_cases hbig : 2 ^ 32 ≤ y
        · have hd1 : n / y ≤ n / 2 ^ 32 := Nat.div_le_div_left hbig (by norm_num)
          have hd2 : n / 2 ^ 32 ≤ (2 ^ 64 - 2) / 2 ^ 32 := Nat.div_le_div_right hn2
          have hd3 : (2 ^ 64 - 2 : Nat) / 2 ^ 32 = 2 ^ 32 - 1 := by norm_num
          omega
        · omega
      rw [Nat.mod_eq_of_lt hno]
      have hb : (y + n / y) / 2 ≤ 2 ^ 63 - 1 := by
        have hb1 : (y + n / y) / 2 ≤ (2 ^ 64 - 1) / 2 := Nat.div_le_div_right (by omega)
        have hb2 : (2 ^ 64 - 1 : Nat) / 2 = 2 ^ 63 - 1 := by norm_num
        omega
      exact ih y hlt ((y + n / y) / 2) (sqrt_iter_lower_bound n y hy1) hb
    · rw [if_neg hlt, if_neg hlt]

theorem integer_sqrt_u64_eq (n : Nat) (h : n ≤ 2 ^ 64 - 2) :
    InkScoring.integer_sqrt_u64 n = some (InkScoring.ScoringEngine.integer_sqrt n) := by
  unfold InkScoring.integer_sqrt_u64 InkScoring.ScoringEngine.integer_sqrt
  split_ifs with h0 h1
  · rfl
  · rfl
  · have hn2 : 2 ≤ n := by omega
    rw [Nat.mod_eq_of_lt (by omega : n + 1 < 2 ^ 64)]
    have hinv : n < ((n + 1) / 2 + 1) * ((n + 1) / 2 + 1) := by
      have := sqrt_iter_lower_bound n n (by omega)
      rwa [Nat.div_self (by omega : 0 < n)] at this
    exact sqrtLoopU64_eq n (by omega) h n ((n + 1) / 2) hinv (by omega)

/-- C9 (amended): for every u64 input `n` other than `u64::MAX`, the Newton
integer square root runs without overflow or division by zero and returns
the floor of the real square root (`r * r ≤ n < (r + 1) * (r + 1)`), and
the right-shift integer log2 returns the floor of `log2 n` for `n ≥ 1`
(`2 ^ l ≤ n < 2 ^ (l + 1)`).  At `n = u64::MAX` itself the procedure
fails; see the counterexample. -/
theorem C9_sqrt_log2_floor (n : Nat) (h : n ≤ 2 ^ 64 - 2) :
    InkScoring.integer_sqrt_u64 n = some (InkScoring.ScoringEngine.integer_sqrt n) ∧
    InkScoring.ScoringEngine.integer_sqrt n * InkScoring.ScoringEngine.integer_sqrt n ≤ n ∧
    n < (InkScoring.ScoringEngine.integer_sqrt n + 1) *
      (InkScoring.ScoringEngine.integer_sqrt n + 1) ∧
    (1 ≤ n → 2 ^ InkScoring.ScoringEngine.integer_log2 n ≤ n ∧
      n < 2 ^ (InkScoring.ScoringEngine.integer_log2 n + 1)) :=
  ⟨integer_sqrt_u64_eq n h, (integer_sqrt_correct n).1, (integer_sqrt_correct n).2,
    fun h1 => integer_log2_spec n h1⟩

/-- C9 witness: the floor characterisation at `n = 10`. -/
theorem C9_sqrt_log2_floor_witness :
    InkScoring.integer_sqrt_u64 10 = some (InkScoring.ScoringEngine.integer_sqrt 10) ∧
    InkScoring.ScoringEngine.integer_sqrt 10 * InkScoring.ScoringEngine.integer_sqrt 10 ≤ 10 ∧
    10 < (InkScoring.ScoringEngine.integer_sqrt 10 + 1) *
      (InkScoring.ScoringEngine.integer_sqrt 10 + 1) ∧
    2 ^ InkScoring.ScoringEngine.integer_log2 10 ≤ 10 ∧
    10 < 2 ^ (InkScoring.ScoringEngine.integer_log2 10 + 1) :=
  ⟨(C9_sqrt_log2_floor 10 (by norm_num)).1, (C9_sqrt_log2_floor 10 (by norm_num)).2.1,
    (C9_sqrt_log2_floor 10 (by norm_num)).2.2.1,
    (C9_sqrt_log2_floor 10 (by norm_num)).2.2.2 (by norm_num)⟩

/-- C9 counterexample: at `n = u64::MAX = 2^64 − 1` the procedure does not
terminate with the floor square root: the initial `x + 1` wraps to 0, the
next division is a division by zero, and the Rust code panics (modelled as
`none`) instead of returning `2^32 − 1`. -/
theorem C9_sqrt_u64_max_counterexample :
    InkScoring.integer_sqrt_u64 (2 ^ 64 - 1) = none := by
  rw [InkScoring.integer_sqrt_u64]
  norm_num
  rw [InkScoring.sqrtLoopU64]
  norm_num
